import Mathlib

/-!
Verification of the rusoto S3 addressing / error-algebra core.

Definitions are shallow embeddings of:
  * `src/rusoto/services/s3/src/custom/util.rs`
  * `src/rusoto/core/src/error.rs`
Rust strings are modelled as Lean `String` (operations are performed on the
underlying character list, matching Rust's `str::chars()` view), `Result` as
`Except`, and machine-level byte indices as character indices (every pattern
sliced at in the source is pure ASCII, so the slices coincide).
-/

/-- Rust `char::is_ascii_lowercase`: the character is in `'a'..='z'`. -/
def isAsciiLowercase (c : Char) : Bool :=
  'a' ≤ c && c ≤ 'z'

/-- Rust `char::is_digit(10)`: the character is in `'0'..='9'`. -/
def isDigit10 (c : Char) : Bool :=
  '0' ≤ c && c ≤ '9'

/-- Embedding of `is_valid_dns_name` (util.rs, lines 328-351).
The source collects `bucket_name.chars()` into a vector, rejects when the
length is outside `[3, 63]`, and otherwise checks the first character, the
slice `[1..=(n-2)]`, and the last character.  Index accesses are in bounds
because of the length guard (see `is_valid_dns_name_checked`). -/
def is_valid_dns_name (bucket_name : String) : Bool :=
  let bn := bucket_name.data
  let n := bn.length
  if n < 3 || n > 63 then
    false
  else
    let first := bn.getD 0 default
    let middle := (bn.drop 1).take (n - 2)
    let last := bn.getD (n - 1) default
    (isAsciiLowercase first || isDigit10 first)
      && middle.all (fun c => isAsciiLowercase c || isDigit10 c || c == '-')
      && (isAsciiLowercase last || isDigit10 last)

/-- Variant of `is_valid_dns_name` in which every index / slice access of the
source is checked: an out-of-bounds access yields `none` (modelling a Rust
panic), so `is_valid_dns_name_checked s = some b` states that the source
evaluates without panicking and returns `b`. -/
def is_valid_dns_name_checked (bucket_name : String) : Option Bool :=
  let bn := bucket_name.data
  let n := bn.length
  if n < 3 || n > 63 then
    some false
  else
    match bn.get? 0, bn.get? (n - 1) with
    | some first, some last =>
      if 1 ≤ n - 1 ∧ n - 1 ≤ n then
        let middle := (bn.drop 1).take (n - 2)
        some ((isAsciiLowercase first || isDigit10 first)
          && middle.all (fun c => isAsciiLowercase c || isDigit10 c || c == '-')
          && (isAsciiLowercase last || isDigit10 last))
      else
        none
    | _, _ => none

/-- The spec-level per-position character rule for bucket names: boundary
characters (position `0` and position `len - 1`) must be a lowercase ASCII
letter or a digit, characters strictly between them may also be a hyphen. -/
def specCharOk (len i : Nat) (c : Char) : Bool :=
  if i = 0 || i = len - 1 then
    isAsciiLowercase c || isDigit10 c
  else
    isAsciiLowercase c || isDigit10 c || c == '-'

/-- First character index at which `pat` occurs as a contiguous subsequence of
the list, embedding Rust `str::find(&str)` at character granularity (every
pattern searched for in the source is ASCII, so byte and character indices
slice identically). -/
def findSubIdx (pat : List Char) : List Char → Option Nat
  | [] => if pat.isEmpty then some 0 else none
  | c :: rest =>
    if pat.isPrefixOf (c :: rest) then some 0
    else (findSubIdx pat rest).map (· + 1)

/-- First index at which a character satisfying `p` occurs, embedding Rust
`str::find(char)` at character granularity. -/
def findCharIdx (p : Char → Bool) : List Char → Option Nat
  | [] => none
  | c :: rest =>
    if p c then some 0
    else (findCharIdx p rest).map (· + 1)

/-- The `unschemed` step of `extract_hostname` (util.rs, lines 354-357):
`endpoint.find("://").map(|p| &endpoint[p + 3..]).unwrap_or(endpoint)`. -/
def unschemedOf (e : List Char) : List Char :=
  match findSubIdx [':', '/', '/'] e with
  | some p => e.drop (p + 3)
  | none => e

/-- The host step of `extract_hostname` (util.rs, lines 358-361):
`unschemed.find('/').map(|p| &unschemed[..p]).unwrap_or(unschemed)`. -/
def hostOf (unschemed : List Char) : List Char :=
  match findCharIdx (fun c => c == '/') unschemed with
  | some p => unschemed.take p
  | none => unschemed

/-- Embedding of `extract_hostname` (util.rs, lines 353-362): strip everything
up to and including the first `"://"` (if any), then keep everything strictly
before the first `'/'` (if any). -/
def extract_hostname (endpoint : String) : String :=
  String.mk (hostOf (unschemedOf endpoint.data))

/-- Modelled from the spec: `rusoto_core::region::Region` is not under src/.
The spec describes "well-known named regions and a Custom variant carrying an
explicit endpoint URL"; util.rs pattern-matches on `Custom { endpoint, .. }`,
on the two China-partition identifiers `CnNorth1 | CnNorthwest1`, and treats
every other region uniformly through its `name()`.  `Other` stands for any
non-China, non-custom region, carrying its name. -/
inductive Region where
  | Custom (name endpoint : String)
  | CnNorth1
  | CnNorthwest1
  | Other (name : String)
deriving DecidableEq, Repr

/-- Modelled from the spec: `Region::name()` is not under src/; it returns the
region's identifier string (the "<region-name>" of the hostname templates). -/
def Region.name : Region → String
  | .Custom n _ => n
  | .CnNorth1 => "cn-north-1"
  | .CnNorthwest1 => "cn-northwest-1"
  | .Other n => n

/-- Embedding of `InvalidDnsNameError` (error.rs, lines 109-128): a
single-field error value holding a message string. -/
structure InvalidDnsNameError where
  message : String
deriving DecidableEq, Repr

/-- Embedding of `InvalidDnsNameError::new`. -/
def InvalidDnsNameError.new (message : String) : InvalidDnsNameError :=
  ⟨message⟩

/-- Embedding of `build_path_style_hostname` (util.rs, lines 299-305). -/
def build_path_style_hostname (region : Region) : String :=
  match region with
  | .Custom _ endpoint => extract_hostname endpoint
  | .CnNorth1 | .CnNorthwest1 => "s3." ++ region.name ++ ".amazonaws.com.cn"
  | _ => "s3." ++ region.name ++ ".amazonaws.com"

/-- Embedding of `build_virtual_style_hostname` (util.rs, lines 307-319). -/
def build_virtual_style_hostname (base_hostname : String) (bucket : String) :
    Except InvalidDnsNameError String :=
  if is_valid_dns_name bucket then
    Except.ok (bucket ++ "." ++ base_hostname)
  else
    Except.error (InvalidDnsNameError.new ("Invalid DNS name. bucket: " ++ bucket))

/-- Embedding of `AddressingStyle` (util.rs, lines 268-273). -/
inductive AddressingStyle where
  | Auto
  | Virtual
  | Path
deriving DecidableEq, Repr

/-- Embedding of `AddressingStyle::build_s3_hostname` (util.rs, lines
282-297).  `Result<(bool, String), InvalidDnsNameError>` becomes
`Except InvalidDnsNameError (Bool × String)`; the `map` / `or_else`
combinators are expanded into their matches. -/
def AddressingStyle.build_s3_hostname (style : AddressingStyle)
    (region : Region) (bucket : String) :
    Except InvalidDnsNameError (Bool × String) :=
  let base_hostname := build_path_style_hostname region
  match style with
  | .Auto =>
    match build_virtual_style_hostname base_hostname bucket with
    | .ok hostname => .ok (true, hostname)
    | .error _ => .ok (false, base_hostname)
  | .Virtual =>
    match build_virtual_style_hostname base_hostname bucket with
    | .ok hostname => .ok (true, hostname)
    | .error e => .error e
  | .Path => .ok (false, base_hostname)

/-- Embedding of `PreSignedRequestOption` (util.rs, lines 65-68); the
`expires_in` duration is modelled in whole seconds. -/
structure PreSignedRequestOption where
  expires_in : Nat
  addressing_style : AddressingStyle
deriving DecidableEq, Repr

/-- Embedding of `build_request_uri_and_hostname` (util.rs, lines 246-261). -/
def build_request_uri_and_hostname (region : Region) (bucket : String)
    (key : String) (option : PreSignedRequestOption) :
    Except InvalidDnsNameError (String × String) :=
  match option.addressing_style.build_s3_hostname region bucket with
  | .error e => .error e
  | .ok (is_virtual, hostname) =>
    let request_uri :=
      if is_virtual then "/" ++ key
      else "/" ++ bucket ++ "/" ++ key
    .ok (request_uri, hostname)

/-- Collaborator type (`rusoto_core::credential::CredentialsError`, not under
src/): modelled as the message string it renders; error.rs only stores and
re-renders it. -/
structure CredentialsError where
  message : String
deriving DecidableEq, Repr

/-- Collaborator type (`rusoto_core::request::HttpDispatchError`, not under
src/): modelled as the message string it renders. -/
structure HttpDispatchError where
  message : String
deriving DecidableEq, Repr

/-- Collaborator type (`proto::xml::util::XmlParseError`, not under src/): a
one-field tuple struct holding the decoder's message, as destructured by
`let XmlParseError(message) = err` in error.rs. -/
structure XmlParseError where
  message : String
deriving DecidableEq, Repr

/-- Collaborator type (`serde_json::error::Error`, not under src/): modelled
by the string its `to_string()` produces, which is all error.rs uses. -/
structure SerdeJsonError where
  toString : String
deriving DecidableEq, Repr

/-- Collaborator type (`std::io::Error`, not under src/): modelled by the
string its `to_string()` produces. -/
structure IoError where
  toString : String
deriving DecidableEq, Repr

/-- Modelled from the spec: `HttpDispatchError::from(io::Error)` is not under
src/; a raw I/O failure becomes a transport-level dispatch error, keeping the
original cause's text. -/
def HttpDispatchError.fromIoError (err : IoError) : HttpDispatchError :=
  ⟨err.toString⟩

/-- Embedding of `SignAndDispatchError` (`client.rs`, not under src/, but its
two variants and their payloads are fixed by the `match` in error.rs lines
63-70): a combined failure that originated either during credential signing
or during dispatch. -/
inductive SignAndDispatchError where
  | Credentials (e : CredentialsError)
  | Dispatch (e : HttpDispatchError)
deriving DecidableEq, Repr

/-- Modelled from the spec: `BufferedHttpResponse` (request.rs, not under
src/) is "a value exposing a header lookup and a body-as-text accessor".
Headers are an association list of name/value pairs; the body is its text. -/
structure BufferedHttpResponse where
  headers : List (String × String)
  body : String
deriving DecidableEq, Repr

/-- Header lookup on a captured response: value of the first header with the
given name, if any. -/
def BufferedHttpResponse.headersGet (r : BufferedHttpResponse) (name : String) :
    Option String :=
  (r.headers.find? (fun p => p.1 == name)).map (fun p => p.2)

/-- Body-as-text accessor of a captured response. -/
def BufferedHttpResponse.body_as_str (r : BufferedHttpResponse) : String :=
  r.body

/-- Embedding of `AWS_REQUEST_ID_HEADER` (error.rs, line 36). -/
def AWS_REQUEST_ID_HEADER : String := "x-amzn-requestid"

/-- Embedding of `RusotoError<E>` (error.rs, lines 13-30). -/
inductive RusotoError (E : Type) where
  | Service (err : E)
  | HttpDispatch (err : HttpDispatchError)
  | InvalidDnsName (err : InvalidDnsNameError)
  | Credentials (err : CredentialsError)
  | Validation (cause : String)
  | ParseError (cause : String)
  | Unknown (cause : BufferedHttpResponse)
  | Blocking
deriving DecidableEq, Repr

/-- Embedding of `impl From<XmlParseError> for RusotoError` (error.rs, lines
38-43). -/
def RusotoError.fromXmlParseError (err : XmlParseError) : RusotoError E :=
  .ParseError err.message

/-- Embedding of `impl From<serde_json::error::Error> for RusotoError`
(error.rs, lines 45-49). -/
def RusotoError.fromSerdeJsonError (err : SerdeJsonError) : RusotoError E :=
  .ParseError err.toString

/-- Embedding of `impl From<CredentialsError> for RusotoError` (error.rs,
lines 51-55). -/
def RusotoError.fromCredentialsError (err : CredentialsError) : RusotoError E :=
  .Credentials err

/-- Embedding of `impl From<HttpDispatchError> for RusotoError` (error.rs,
lines 57-61). -/
def RusotoError.fromHttpDispatchError (err : HttpDispatchError) : RusotoError E :=
  .HttpDispatch err

/-- Embedding of `impl From<SignAndDispatchError> for RusotoError` (error.rs,
lines 63-70): each arm delegates to the `From` impl of its payload. -/
def RusotoError.fromSignAndDispatchError (err : SignAndDispatchError) :
    RusotoError E :=
  match err with
  | .Credentials e => RusotoError.fromCredentialsError e
  | .Dispatch e => RusotoError.fromHttpDispatchError e

/-- Embedding of `impl From<io::Error> for RusotoError` (error.rs, lines
72-76). -/
def RusotoError.fromIoError (err : IoError) : RusotoError E :=
  .HttpDispatch (HttpDispatchError.fromIoError err)

/-- Modelled from the spec: a `From<InvalidDnsNameError>` conversion for the
generic error type is not under src/ (error.rs declares the variant only);
the spec states "An `InvalidDnsNameError` becomes `InvalidDnsName`
unchanged." -/
def RusotoError.fromInvalidDnsNameError (err : InvalidDnsNameError) :
    RusotoError E :=
  .InvalidDnsName err

/-- Rust's derived `Debug` rendering of the `Option` returned by the header
lookup, as formatted by the `{:?}` in error.rs line 90: `Some("v")` when the
header is present with value `v`, the literal `None` when absent. -/
def optionDebug : Option String → String
  | some s => "Some(\"" ++ s ++ "\")"
  | none => "None"

/-- Embedding of `impl fmt::Display for RusotoError` (error.rs, lines 78-96);
`showE` stands for the payload type's own `Display`, and the collaborator
error types render their stored message. -/
def RusotoError.display (showE : E → String) : RusotoError E → String
  | .Service err => showE err
  | .Validation cause => cause
  | .Credentials err => err.message
  | .HttpDispatch dispatch_error => dispatch_error.message
  | .InvalidDnsName dns_error => dns_error.message
  | .ParseError cause => cause
  | .Unknown cause =>
    "Request ID: " ++ optionDebug (cause.headersGet AWS_REQUEST_ID_HEADER)
      ++ " Body: " ++ cause.body_as_str
  | .Blocking => "Failed to run blocking future"

/-- The possible referents of `Error::source` for `RusotoError<E>`: the three
variants whose wrapped inner error is exposed as the cause. -/
inductive RusotoErrorSource (E : Type) where
  | service (err : E)
  | credentials (err : CredentialsError)
  | httpDispatch (err : HttpDispatchError)
deriving DecidableEq, Repr

/-- Embedding of `Error::source` for `RusotoError` (error.rs, lines 98-107):
`Some` of the wrapped error for `Service`, `Credentials` and `HttpDispatch`,
`None` for every other variant. -/
def RusotoError.source : RusotoError E → Option (RusotoErrorSource E)
  | .Service err => some (.service err)
  | .Credentials err => some (.credentials err)
  | .HttpDispatch err => some (.httpDispatch err)
  | _ => none

/-- Decidable "occurs as a contiguous substring" check on character lists,
used to state that a rendered message contains a given fragment. -/
def containsSeq (needle : List Char) : List Char → Bool
  | [] => needle.isEmpty
  | c :: rest => needle.isPrefixOf (c :: rest) || containsSeq needle rest


/-- A list occurs as a substring at the very start of `n ++ s`. -/
theorem containsSeq_here (n s : List Char) : containsSeq n (n ++ s) = true := by
  cases n with
  | nil =>
    cases s with
    | nil => rfl
    | cons c rest => simp [containsSeq, List.isPrefixOf]
  | cons c rest =>
    have hp : (c :: rest).isPrefixOf ((c :: rest) ++ s) = true :=
      List.isPrefixOf_iff_prefix.mpr (List.prefix_append _ _)
    simp [containsSeq, hp]

/-- Substring occurrence is preserved by extending the haystack on the left. -/
theorem containsSeq_cons_of (n : List Char) (c : Char) (rest : List Char)
    (h : containsSeq n rest = true) : containsSeq n (c :: rest) = true := by
  simp [containsSeq, h]

/-- A list occurs as a substring of anything of the shape `p ++ (n ++ s)`. -/
theorem containsSeq_middle (n p s : List Char) :
    containsSeq n (p ++ (n ++ s)) = true := by
  induction p with
  | nil => simpa using containsSeq_here n s
  | cons c p ih => simpa using containsSeq_cons_of n c _ ih

/-- C3: for every region and every bucket name (valid or not),
`build_s3_hostname` with style `Path` returns `Ok((false, base_hostname))`:
the result is the path-style hostname for every bucket, independent of the
DNS-name validator, and `Path` style never fails. -/
theorem c3_path_style_never_fails (region : Region) (bucket : String) :
    AddressingStyle.Path.build_s3_hostname region bucket =
      .ok (false, build_path_style_hostname region) := rfl

/-- C2: for every region and every bucket name rejected by the validator,
`Auto` style returns `Ok((false, base_hostname))` (the path-style hostname,
no error), while `Virtual` style returns an `InvalidDnsNameError` whose
message contains that same bucket name. -/
theorem c2_invalid_bucket_auto_falls_back (region : Region) (bucket : String)
    (hb : is_valid_dns_name bucket = false) :
    AddressingStyle.Auto.build_s3_hostname region bucket =
      .ok (false, build_path_style_hostname region) ∧
    ∃ msg : String,
      AddressingStyle.Virtual.build_s3_hostname region bucket =
        .error (InvalidDnsNameError.new msg) ∧
      containsSeq bucket.data msg.data = true := by
  refine ⟨?_, "Invalid DNS name. bucket: " ++ bucket, ?_, ?_⟩
  · simp [AddressingStyle.build_s3_hostname, build_virtual_style_hostname, hb]
  · simp [AddressingStyle.build_s3_hostname, build_virtual_style_hostname, hb]
  · rw [String.data_append]
    simpa using
      containsSeq_middle bucket.data ("Invalid DNS name. bucket: ").data []

/-- Witness for C2 at the spec's own example input `My_Bucket`. -/
theorem c2_invalid_bucket_auto_falls_back_witness :
    is_valid_dns_name "My_Bucket" = false ∧
    (AddressingStyle.Auto.build_s3_hostname (.Other "us-west-2") "My_Bucket" =
        .ok (false, build_path_style_hostname (.Other "us-west-2")) ∧
      ∃ msg : String,
        AddressingStyle.Virtual.build_s3_hostname (.Other "us-west-2") "My_Bucket" =
          .error (InvalidDnsNameError.new msg) ∧
        containsSeq "My_Bucket".data msg.data = true) :=
  ⟨by decide,
    c2_invalid_bucket_auto_falls_back (.Other "us-west-2") "My_Bucket" (by decide)⟩

/-- C5: for every region and every bucket name accepted by the validator,
`Virtual` style and `Auto` style both return
`Ok((true, "<bucket>.<base_hostname>"))`; in particular region `us-west-2`
with bucket `my-bucket` and style `Auto` yields
`my-bucket.s3.us-west-2.amazonaws.com` with `is_virtual = true`. -/
theorem c5_valid_bucket_virtual_hostname (region : Region) (bucket : String)
    (hb : is_valid_dns_name bucket = true) :
    AddressingStyle.Virtual.build_s3_hostname region bucket =
      .ok (true, bucket ++ "." ++ build_path_style_hostname region) ∧
    AddressingStyle.Auto.build_s3_hostname region bucket =
      .ok (true, bucket ++ "." ++ build_path_style_hostname region) ∧
    AddressingStyle.Auto.build_s3_hostname (.Other "us-west-2") "my-bucket" =
      .ok (true, "my-bucket.s3.us-west-2.amazonaws.com") := by
  refine ⟨?_, ?_, by rfl⟩ <;>
    simp [AddressingStyle.build_s3_hostname, build_virtual_style_hostname, hb]

/-- Witness for C5 at the spec's own example input `my-bucket`. -/
theorem c5_valid_bucket_virtual_hostname_witness :
    is_valid_dns_name "my-bucket" = true ∧
    (AddressingStyle.Virtual.build_s3_hostname (.Other "us-west-2") "my-bucket" =
        .ok (true, "my-bucket" ++ "." ++ build_path_style_hostname (.Other "us-west-2")) ∧
      AddressingStyle.Auto.build_s3_hostname (.Other "us-west-2") "my-bucket" =
        .ok (true, "my-bucket" ++ "." ++ build_path_style_hostname (.Other "us-west-2")) ∧
      AddressingStyle.Auto.build_s3_hostname (.Other "us-west-2") "my-bucket" =
        .ok (true, "my-bucket.s3.us-west-2.amazonaws.com")) :=
  ⟨by decide,
    c5_valid_bucket_virtual_hostname (.Other "us-west-2") "my-bucket" (by decide)⟩

/-- C6: whenever the resolved addressing is virtual-hosted style the request
URI produced by `build_request_uri_and_hostname` is exactly `/<key>`, and
whenever it is path style the request URI is exactly `/<bucket>/<key>` (the
hostname is passed through unchanged). -/
theorem c6_request_uri_shape (region : Region) (bucket key : String)
    (opt : PreSignedRequestOption) (isv : Bool) (hostname : String)
    (hres : opt.addressing_style.build_s3_hostname region bucket =
      .ok (isv, hostname)) :
    build_request_uri_and_hostname region bucket key opt =
      .ok ((if isv then "/" ++ key else "/" ++ bucket ++ "/" ++ key), hostname) := by
  simp [build_request_uri_and_hostname, hres]

/-- Witness for C6 at a concrete virtual-style resolution. -/
theorem c6_request_uri_shape_witness :
    (AddressingStyle.Auto.build_s3_hostname (.Other "us-west-2") "my-bucket" =
        .ok (true, "my-bucket.s3.us-west-2.amazonaws.com")) ∧
    build_request_uri_and_hostname (.Other "us-west-2") "my-bucket" "my-key"
        ⟨3600, .Auto⟩ =
      .ok ((if true then "/" ++ "my-key" else "/" ++ "my-bucket" ++ "/" ++ "my-key"),
        "my-bucket.s3.us-west-2.amazonaws.com") :=
  ⟨by rfl,
    c6_request_uri_shape (.Other "us-west-2") "my-bucket" "my-key"
      ⟨3600, .Auto⟩ true "my-bucket.s3.us-west-2.amazonaws.com" (by rfl)⟩

/-- C7: the conversions into `RusotoError` preserve the failure's origin: a
sign-or-dispatch failure is case-split into `Credentials` / `HttpDispatch`, a
raw I/O failure becomes `HttpDispatch`, a credential-resolution failure
becomes `Credentials`, a parse failure (XML or JSON decoder) becomes
`ParseError` carrying the decoder's message, and an `InvalidDnsNameError`
becomes `InvalidDnsName` unchanged. -/
theorem c7_conversions_preserve_origin (E : Type) :
    (∀ e, RusotoError.fromSignAndDispatchError (E := E) (.Credentials e) =
      .Credentials e) ∧
    (∀ e, RusotoError.fromSignAndDispatchError (E := E) (.Dispatch e) =
      .HttpDispatch e) ∧
    (∀ e, RusotoError.fromIoError (E := E) e =
      .HttpDispatch (HttpDispatchError.fromIoError e)) ∧
    (∀ e, RusotoError.fromCredentialsError (E := E) e = .Credentials e) ∧
    (∀ e, RusotoError.fromHttpDispatchError (E := E) e = .HttpDispatch e) ∧
    (∀ e, RusotoError.fromXmlParseError (E := E) e = .ParseError e.message) ∧
    (∀ e, RusotoError.fromSerdeJsonError (E := E) e = .ParseError e.toString) ∧
    (∀ e, RusotoError.fromInvalidDnsNameError (E := E) e = .InvalidDnsName e) :=
  ⟨fun _ => rfl, fun _ => rfl, fun _ => rfl, fun _ => rfl, fun _ => rfl,
    fun _ => rfl, fun _ => rfl, fun _ => rfl⟩

/-- C9: `Error::source` returns the wrapped inner error for exactly the
`Service`, `Credentials` and `HttpDispatch` variants and `none` for
`InvalidDnsName`, `Validation`, `ParseError`, `Unknown` and `Blocking`. -/
theorem c9_source_exactly_three_variants (E : Type) :
    (∀ e : E, (RusotoError.Service e).source = some (.service e)) ∧
    (∀ e, (RusotoError.Credentials (E := E) e).source = some (.credentials e)) ∧
    (∀ e, (RusotoError.HttpDispatch (E := E) e).source = some (.httpDispatch e)) ∧
    (∀ e, (RusotoError.InvalidDnsName (E := E) e).source = none) ∧
    (∀ s, (RusotoError.Validation (E := E) s).source = none) ∧
    (∀ s, (RusotoError.ParseError (E := E) s).source = none) ∧
    (∀ r, (RusotoError.Unknown (E := E) r).source = none) ∧
    (RusotoError.Blocking (E := E)).source = none :=
  ⟨fun _ => rfl, fun _ => rfl, fun _ => rfl, fun _ => rfl, fun _ => rfl,
    fun _ => rfl, fun _ => rfl, rfl⟩

/-- C8 counterexample: for an `Unknown` error built from a response with no
`x-amzn-requestid` header, the Display rendering is
`Request ID: None Body: oops`: it does not contain the literal marker
`none found` that the claim requires for the absent-header case. -/
theorem c8_counterexample_no_none_found :
    BufferedHttpResponse.headersGet ⟨[], "oops"⟩ AWS_REQUEST_ID_HEADER = none ∧
    (RusotoError.Unknown (E := Unit) ⟨[], "oops"⟩).display (fun _ => "") =
      "Request ID: None Body: oops" ∧
    containsSeq "none found".data
      ((RusotoError.Unknown (E := Unit) ⟨[], "oops"⟩).display
        (fun _ => "")).data = false :=
  ⟨rfl, rfl, by decide⟩

/-- C8 (amended): the Display rendering of `Unknown` is
`Request ID: <Debug of the optional header value> Body: <raw body>`; it
always contains the header value when the header is present and the literal
`None` (Rust's `Debug` for an absent `Option`, not `none found`) when it is
absent, together with the raw body text; in particular the response with
header `x-amzn-requestid: abc123` and body `oops` renders to text containing
both `abc123` and `oops`. -/
theorem c8_unknown_display_amended (E : Type) (showE : E → String)
    (r : BufferedHttpResponse) :
    (RusotoError.Unknown (E := E) r).display showE =
      "Request ID: " ++ optionDebug (r.headersGet AWS_REQUEST_ID_HEADER)
        ++ " Body: " ++ r.body ∧
    (∀ v, r.headersGet AWS_REQUEST_ID_HEADER = some v →
      containsSeq v.data
        ((RusotoError.Unknown (E := E) r).display showE).data = true) ∧
    containsSeq r.body.data
      ((RusotoError.Unknown (E := E) r).display showE).data = true ∧
    containsSeq "abc123".data
      ((RusotoError.Unknown (E := Unit)
        ⟨[("x-amzn-requestid", "abc123")], "oops"⟩).display
          (fun _ => "")).data = true ∧
    containsSeq "oops".data
      ((RusotoError.Unknown (E := Unit)
        ⟨[("x-amzn-requestid", "abc123")], "oops"⟩).display
          (fun _ => "")).data = true := by
  refine ⟨rfl, ?_, ?_, by decide, by decide⟩
  · intro v hv
    simp only [RusotoError.display, hv, optionDebug, String.data_append,
      List.append_assoc]
    simpa [List.append_assoc] using
      containsSeq_middle v.data ("Request ID: ".data ++ "Some(\"".data)
        ("\")".data ++ (" Body: ".data ++ r.body.data))
  · simp only [RusotoError.display, BufferedHttpResponse.body_as_str,
      String.data_append, List.append_assoc]
    simpa [List.append_assoc] using
      containsSeq_middle r.body.data
        ("Request ID: ".data
          ++ ((optionDebug (r.headersGet AWS_REQUEST_ID_HEADER)).data
            ++ " Body: ".data)) []

/-- Witness for the amended C8 at the spec's own example response. -/
theorem c8_unknown_display_amended_witness :
    (RusotoError.Unknown (E := Unit)
        ⟨[("x-amzn-requestid", "abc123")], "oops"⟩).display (fun _ => "") =
      "Request ID: "
        ++ optionDebug (BufferedHttpResponse.headersGet
          ⟨[("x-amzn-requestid", "abc123")], "oops"⟩ AWS_REQUEST_ID_HEADER)
        ++ " Body: " ++ "oops" ∧
    (∀ v, BufferedHttpResponse.headersGet
        ⟨[("x-amzn-requestid", "abc123")], "oops"⟩ AWS_REQUEST_ID_HEADER =
          some v →
      containsSeq v.data
        ((RusotoError.Unknown (E := Unit)
          ⟨[("x-amzn-requestid", "abc123")], "oops"⟩).display
            (fun _ => "")).data = true) ∧
    containsSeq "oops".data
      ((RusotoError.Unknown (E := Unit)
        ⟨[("x-amzn-requestid", "abc123")], "oops"⟩).display
          (fun _ => "")).data = true ∧
    containsSeq "abc123".data
      ((RusotoError.Unknown (E := Unit)
        ⟨[("x-amzn-requestid", "abc123")], "oops"⟩).display
          (fun _ => "")).data = true ∧
    containsSeq "oops".data
      ((RusotoError.Unknown (E := Unit)
        ⟨[("x-amzn-requestid", "abc123")], "oops"⟩).display
          (fun _ => "")).data = true :=
  c8_unknown_display_amended Unit (fun _ => "")
    ⟨[("x-amzn-requestid", "abc123")], "oops"⟩

/-- `List.getD` at an in-bounds index is the indexed element. -/
theorem getD_eq_get {l : List Char} {i : Nat} (h : i < l.length) (d : Char) :
    l.getD i d = l.get ⟨i, h⟩ := by
  simp [List.getD_eq_getElem?_getD, List.getElem?_eq_getElem h]

/-- C10: `is_valid_dns_name` never panics: the checked variant, in which
every index and slice access of the source yields `none` when out of bounds,
returns `some` of the unchecked result on every input string. -/
theorem c10_no_panic (s : String) :
    is_valid_dns_name_checked s = some (is_valid_dns_name s) := by
  unfold is_valid_dns_name_checked is_valid_dns_name
  have hlen : s.length = s.data.length := rfl
  by_cases h1 : s.length < 3
  · simp [h1, hlen.symm]
  · by_cases h2 : 63 < s.length
    · simp [h2, hlen.symm]
    · have h0 : 0 < s.data.length := by omega
      have hl : s.length - 1 < s.data.length := by omega
      have e0 : s.data[0]? = some (getElem s.data 0 h0) :=
        List.getElem?_eq_getElem h0
      have el : s.data[s.length - 1]? = some (getElem s.data (s.length - 1) hl) :=
        List.getElem?_eq_getElem hl
      simp [h1, h2, hlen.symm, e0, el, (by omega : 1 ≤ s.length - 1)]

/-- If `"://"` is not a prefix of `c :: a`, gluing `"://" ++ t` after `a`
cannot create a prefix occurrence at the head either (the glued text starts
with `':'`, which can never fill a `'/'` slot of the pattern). -/
theorem sep_isPrefixOf_false (c : Char) (a t : List Char)
    (h : [':', '/', '/'].isPrefixOf (c :: a) = false) :
    [':', '/', '/'].isPrefixOf (c :: (a ++ ':' :: '/' :: '/' :: t)) = false := by
  match a with
  | [] => simp [List.isPrefixOf]
  | [a0] => simp [List.isPrefixOf]
  | a0 :: a1 :: rest => simpa [List.isPrefixOf] using h

/-- If `"://"` does not occur in `a`, then in `a ++ "://" ++ t` its first
occurrence is exactly at index `a.length`. -/
theorem findSubIdx_sep (a t : List Char)
    (ha : findSubIdx [':', '/', '/'] a = none) :
    findSubIdx [':', '/', '/'] (a ++ ':' :: '/' :: '/' :: t) = some a.length := by
  induction a with
  | nil => simp [findSubIdx, List.isPrefixOf]
  | cons c a ih =>
    cases hp : [':', '/', '/'].isPrefixOf (c :: a) with
    | true =>
      rw [findSubIdx, if_pos hp] at ha
      exact absurd ha (by simp)
    | false =>
      have ha' : findSubIdx [':', '/', '/'] a = none := by
        rw [findSubIdx, if_neg (by simp [hp])] at ha
        simpa using ha
      rw [List.cons_append, findSubIdx,
        if_neg (by simp [sep_isPrefixOf_false c a t hp]),
        ih ha']
      simp

/-- If no element of the list satisfies `p`, `findCharIdx` finds nothing. -/
theorem findCharIdx_none (p : Char → Bool) (l : List Char)
    (h : ∀ c ∈ l, p c = false) : findCharIdx p l = none := by
  induction l with
  | nil => rfl
  | cons c rest ih =>
    simp [findCharIdx, h c (by simp), ih (fun x hx => h x (by simp [hx]))]

/-- If no element of `l` satisfies `p` and `a` does, the first hit in
`l ++ a :: r` is exactly at index `l.length`. -/
theorem findCharIdx_append (p : Char → Bool) (l r : List Char) (a : Char)
    (hl : ∀ c ∈ l, p c = false) (ha : p a = true) :
    findCharIdx p (l ++ a :: r) = some l.length := by
  induction l with
  | nil => simp [findCharIdx, ha]
  | cons c rest ih =>
    simp [findCharIdx, hl c (by simp), ih (fun x hx => hl x (by simp [hx]))]

/-- The unscheming step drops exactly through the first `"://"` when the part
before it contains no `"://"`. -/
theorem unschemedOf_split (a t : List Char)
    (ha : findSubIdx [':', '/', '/'] a = none) :
    unschemedOf (a ++ ':' :: '/' :: '/' :: t) = t := by
  have h1 : a ++ ':' :: '/' :: '/' :: t = (a ++ [':', '/', '/']) ++ t := by
    simp
  have h2 : (a ++ [':', '/', '/']).length = a.length + 3 := by
    simp
  simp only [unschemedOf, findSubIdx_sep a t ha]
  rw [h1, ← h2, List.drop_left]

/-- The host step keeps exactly the part before the first `'/'`. -/
theorem hostOf_slash (h r : List Char) (hh : ∀ c ∈ h, (c == '/') = false) :
    hostOf (h ++ '/' :: r) = h := by
  simp only [hostOf,
    findCharIdx_append (fun c => c == '/') h r '/' hh (by simp)]
  exact List.take_left h ('/' :: r)

/-- The host step keeps everything when there is no `'/'`. -/
theorem hostOf_noslash (h : List Char) (hh : ∀ c ∈ h, (c == '/') = false) :
    hostOf h = h := by
  simp [hostOf, findCharIdx_none (fun c => c == '/') h hh]

/-- `extract_hostname` on `<scheme>://<host>/<path>` is `<host>`, provided the
scheme contains no `"://"` and the host contains no `'/'`. -/
theorem extract_hostname_split (scheme host rest : String)
    (hs : findSubIdx [':', '/', '/'] scheme.data = none)
    (hh : ∀ c ∈ host.data, (c == '/') = false) :
    extract_hostname (scheme ++ "://" ++ host ++ "/" ++ rest) = host := by
  have h1 : "://".data = [':', '/', '/'] := rfl
  have h2 : "/".data = ['/'] := rfl
  have hdata : (scheme ++ "://" ++ host ++ "/" ++ rest).data =
      scheme.data ++ ':' :: '/' :: '/' :: (host.data ++ '/' :: rest.data) := by
    simp [String.data_append, h1, h2]
  rw [extract_hostname, hdata, unschemedOf_split scheme.data _ hs,
    hostOf_slash host.data rest.data hh]

/-- `extract_hostname` on `<scheme>://<host>` (no path) is `<host>`, provided
the scheme contains no `"://"` and the host contains no `'/'`. -/
theorem extract_hostname_noslash (scheme host : String)
    (hs : findSubIdx [':', '/', '/'] scheme.data = none)
    (hh : ∀ c ∈ host.data, (c == '/') = false) :
    extract_hostname (scheme ++ "://" ++ host) = host := by
  have h1 : "://".data = [':', '/', '/'] := rfl
  have hdata : (scheme ++ "://" ++ host).data =
      scheme.data ++ ':' :: '/' :: '/' :: host.data := by
    simp [String.data_append, h1]
  rw [extract_hostname, hdata, unschemedOf_split scheme.data _ hs,
    hostOf_noslash host.data hh]

/-- C4: the base hostname: for a `Custom` region it is the host portion of
the endpoint — the scheme prefix up to and including `"://"` is stripped,
then everything from the first `'/'` onward (in particular
`https://minio.example.org:9000/` yields `minio.example.org:9000`); for the
China-partition regions it is `s3.<region-name>.amazonaws.com.cn`; for every
other region it is `s3.<region-name>.amazonaws.com`. -/
theorem c4_base_hostname :
    (∀ name endpoint, build_path_style_hostname (.Custom name endpoint) =
      extract_hostname endpoint) ∧
    (∀ scheme host rest : String,
      findSubIdx [':', '/', '/'] scheme.data = none →
      (∀ c ∈ host.data, (c == '/') = false) →
      extract_hostname (scheme ++ "://" ++ host ++ "/" ++ rest) = host ∧
      extract_hostname (scheme ++ "://" ++ host) = host) ∧
    extract_hostname "https://minio.example.org:9000/" =
      "minio.example.org:9000" ∧
    build_path_style_hostname .CnNorth1 =
      "s3." ++ (Region.CnNorth1).name ++ ".amazonaws.com.cn" ∧
    build_path_style_hostname .CnNorthwest1 =
      "s3." ++ (Region.CnNorthwest1).name ++ ".amazonaws.com.cn" ∧
    (∀ name, build_path_style_hostname (.Other name) =
      "s3." ++ name ++ ".amazonaws.com") :=
  ⟨fun _ _ => rfl,
    fun scheme host rest hs hh =>
      ⟨extract_hostname_split scheme host rest hs hh,
        extract_hostname_noslash scheme host hs hh⟩,
    by decide, rfl, rfl, fun _ => rfl⟩

/-- Witness for C4 at the spec's own custom-endpoint example, decomposed as
scheme `https`, host `minio.example.org:9000`, empty path. -/
theorem c4_base_hostname_witness :
    findSubIdx [':', '/', '/'] "https".data = none ∧
    (∀ c ∈ "minio.example.org:9000".data, (c == '/') = false) ∧
    (extract_hostname ("https" ++ "://" ++ "minio.example.org:9000" ++ "/" ++ "") =
        "minio.example.org:9000" ∧
      extract_hostname ("https" ++ "://" ++ "minio.example.org:9000") =
        "minio.example.org:9000") :=
  ⟨by decide, by decide,
    c4_base_hostname.2.1 "https" "minio.example.org:9000" ""
      (by decide) (by decide)⟩

/-- Indexing a list at provably equal indices gives the same element. -/
theorem getElem_idx_congr {l : List Char} {i j : Nat} (hij : i = j)
    (hi : i < l.length) (hj : j < l.length) :
    getElem l i hi = getElem l j hj := by
  subst hij
  rfl

/-- The element of the middle slice `(l.drop 1).take (l.length - 2)` at
offset `j` is the element of `l` at position `j + 1`. -/
theorem middle_getElem (l : List Char) (j : Nat)
    (hj : j < ((l.drop 1).take (l.length - 2)).length)
    (hj1 : j + 1 < l.length) :
    getElem ((l.drop 1).take (l.length - 2)) j hj = getElem l (j + 1) hj1 := by
  have hj' : j < (l.drop 1).length := by
    simp at hj ⊢
    omega
  rw [List.getElem_take, ← List.getElem_drop']
  exact getElem_idx_congr (Nat.add_comm 1 j) (by omega) hj1

/-- The boolean `all` over the middle slice says exactly: every position of
`l` strictly between the first and last satisfies `p`. -/
theorem middle_all_iff (l : List Char) (p : Char → Bool) (h3 : 3 ≤ l.length) :
    ((l.drop 1).take (l.length - 2)).all p = true ↔
      ∀ j (hj : j + 1 < l.length), j + 1 ≤ l.length - 2 →
        p (getElem l (j + 1) hj) = true := by
  rw [List.all_eq_true]
  have hmlen : ((l.drop 1).take (l.length - 2)).length = l.length - 2 := by
    simp
    omega
  constructor
  · intro hall j hj hj2
    have hjm : j < ((l.drop 1).take (l.length - 2)).length := by omega
    have := hall _ (List.getElem_mem hjm)
    rwa [middle_getElem l j hjm] at this
  · intro hidx x hx
    obtain ⟨j, hjm, rfl⟩ := List.mem_iff_getElem.mp hx
    rw [middle_getElem l j hjm]
    exact hidx j (by simp at hjm; omega) (by omega)

/-- `is_valid_dns_name` is `false` whenever the length guard fires. -/
theorem is_valid_dns_name_eq_false (s : String)
    (h : s.data.length < 3 ∨ 63 < s.data.length) :
    is_valid_dns_name s = false := by
  have h' : s.length < 3 ∨ 63 < s.length := h
  unfold is_valid_dns_name
  rcases h' with h' | h' <;> rcases h with h | h <;> simp [h, h']

/-- Unfolding of `is_valid_dns_name` when the length guard passes: the three
checks on the first character, the middle slice, and the last character. -/
theorem is_valid_dns_name_eq (s : String) (h3 : 3 ≤ s.data.length)
    (h63 : s.data.length ≤ 63) :
    is_valid_dns_name s =
      ((isAsciiLowercase (getElem s.data 0 (by omega))
          || isDigit10 (getElem s.data 0 (by omega)))
        && ((s.data.drop 1).take (s.data.length - 2)).all
            (fun c => isAsciiLowercase c || isDigit10 c || c == '-')
        && (isAsciiLowercase (getElem s.data (s.data.length - 1) (by omega))
          || isDigit10 (getElem s.data (s.data.length - 1) (by omega)))) := by
  unfold is_valid_dns_name
  have h0 : 0 < s.data.length := by omega
  have hl : s.data.length - 1 < s.data.length := by omega
  have h1 : ¬(s.length < 3) := by
    show ¬(s.data.length < 3)
    omega
  have h2 : ¬(63 < s.length) := by
    show ¬(63 < s.data.length)
    omega
  have e0 : s.data[0]? = some (getElem s.data 0 h0) :=
    List.getElem?_eq_getElem h0
  have el : s.data[s.length - 1]? = some (getElem s.data (s.length - 1) hl) :=
    List.getElem?_eq_getElem hl
  simp [h1, h2, e0, el]

/-- C1: `is_valid_dns_name` returns `true` iff the string's length in
characters is between 3 and 63 inclusive, its first and last characters are
lowercase ASCII letters or digits, and every character strictly between them
is a lowercase ASCII letter, digit, or hyphen (so uppercase letters,
underscores, dots, non-ASCII characters anywhere, and hyphens at either
boundary, all make the name invalid). -/
theorem c1_is_valid_dns_name_iff (s : String) :
    is_valid_dns_name s = true ↔
      (3 ≤ s.data.length ∧ s.data.length ≤ 63 ∧
        ∀ i (hi : i < s.data.length),
          specCharOk s.data.length i (s.data.get ⟨i, hi⟩) = true) := by
  constructor
  · intro hv
    rcases Nat.lt_or_ge s.data.length 3 with hlt | h3
    · rw [is_valid_dns_name_eq_false s (Or.inl hlt)] at hv
      cases hv
    rcases Nat.lt_or_ge 63 s.data.length with hgt | h63
    · rw [is_valid_dns_name_eq_false s (Or.inr hgt)] at hv
      cases hv
    refine ⟨h3, h63, ?_⟩
    rw [is_valid_dns_name_eq s h3 h63] at hv
    simp only [Bool.and_eq_true] at hv
    obtain ⟨⟨hfirst, hmid⟩, hlast⟩ := hv
    intro i hi
    rcases eq_or_ne i 0 with rfl | hne0
    · simpa [specCharOk] using hfirst
    · rcases eq_or_ne i (s.data.length - 1) with rfl | hnel
      · have hz : s.data.length - 1 ≠ 0 := by omega
        have hz' : s.length - 1 ≠ 0 := hz
        simpa [specCharOk, hz, hz'] using hlast
      · have hnel' : i ≠ s.length - 1 := hnel
        have hmem := (middle_all_iff s.data _ h3).mp hmid (i - 1)
          (by omega) (by omega)
        rw [getElem_idx_congr (show i - 1 + 1 = i by omega) _ hi] at hmem
        simpa [specCharOk, hne0, hnel, hnel'] using hmem
  · rintro ⟨h3, h63, hall⟩
    rw [is_valid_dns_name_eq s h3 h63]
    simp only [Bool.and_eq_true]
    refine ⟨⟨?_, ?_⟩, ?_⟩
    · have := hall 0 (by omega)
      simpa [specCharOk] using this
    · rw [middle_all_iff s.data _ h3]
      intro j hj hj2
      have hne0 : j + 1 ≠ 0 := by omega
      have hnel : j + 1 ≠ s.data.length - 1 := by omega
      have hnel' : j + 1 ≠ s.length - 1 := hnel
      have := hall (j + 1) hj
      simpa [specCharOk, hne0, hnel, hnel'] using this
    · have hz : s.data.length - 1 ≠ 0 := by omega
      have hz' : s.length - 1 ≠ 0 := hz
      have := hall (s.data.length - 1) (by omega)
      simpa [specCharOk, hz, hz'] using this

/-- Witness for C1 at a concrete valid name. -/
theorem c1_is_valid_dns_name_iff_witness :
    is_valid_dns_name "my-bucket" = true ↔
      (3 ≤ "my-bucket".data.length ∧ "my-bucket".data.length ≤ 63 ∧
        ∀ i (hi : i < "my-bucket".data.length),
          specCharOk "my-bucket".data.length i ("my-bucket".data.get ⟨i, hi⟩) =
            true) :=
  c1_is_valid_dns_name_iff "my-bucket"
